import Mathlib

/-!
Verification development for the Odoo-to-Zoho migration tool.

The Lean definitions below are a shallow embedding of the Python sources:
  - src/utils/validators.py   (DataValidator)
  - src/core/data_mapper.py   (ContactMapper, PropertyMapper, UnitMapper)
  - src/core/zoho_client.py   (ZohoClient)
  - src/core/odoo_client.py   (OdooClient)
  - src/main.py               (MigrationManager)

Dynamic Python values flowing through the mappers are modelled by `PyVal`:
scalars, the `[id, display_name]` relation shape produced by the Odoo
XML-RPC API, and lists whose elements are scalars, relation pairs or lists
of scalars (the shapes that actually occur in Odoo payloads).  Records are
insertion-ordered association lists, matching Python dicts.  Code that can
raise is modelled in `Except Unit`; a `try/except` wrapper catches the
error and returns the Python `None` result, exactly as in the source.
-/

/-- Scalar Python values appearing in Odoo/Zoho payloads.  `aNum` models a
Python float by a rational (the sources only move floats around and test
truthiness, so exact real representation is irrelevant). -/
inductive PyAtom where
  | aNone
  | aBool (b : Bool)
  | aInt (n : Int)
  | aNum (q : Rat)
  | aStr (s : String)
deriving Repr, DecidableEq, Inhabited

/-- Elements of a Python list value: a scalar, an `[id, label]` relation
pair, or a list of scalars (e.g. a many2many id list). -/
inductive PyItem where
  | iAtom (a : PyAtom)
  | iPair (i : Int) (label : String)
  | iList (xs : List PyAtom)
deriving Repr, DecidableEq, Inhabited

/-- Dynamic Python values as seen by the mappers: a scalar, the
`[id, display_name]` relation shape, or a list. -/
inductive PyVal where
  | atom (a : PyAtom)
  | vPair (i : Int) (label : String)
  | vList (xs : List PyItem)
deriving Repr, DecidableEq, Inhabited

@[match_pattern] def PyVal.vNone : PyVal := .atom .aNone
@[match_pattern] def PyVal.vBool (b : Bool) : PyVal := .atom (.aBool b)
@[match_pattern] def PyVal.vInt (n : Int) : PyVal := .atom (.aInt n)
@[match_pattern] def PyVal.vNum (q : Rat) : PyVal := .atom (.aNum q)
@[match_pattern] def PyVal.vStr (s : String) : PyVal := .atom (.aStr s)

/-- View of a list element as a full value. -/
def PyItem.toVal : PyItem → PyVal
  | .iAtom a => .atom a
  | .iPair i l => .vPair i l
  | .iList xs => .vList (xs.map .iAtom)

/-- Python records (dicts with string keys), as insertion-ordered
association lists with distinct keys. -/
abbrev PyRecord := List (String × PyVal)

/-- Python `record.get(key, default)`. -/
def rget (r : PyRecord) (k : String) (d : PyVal) : PyVal :=
  (r.lookup k).getD d

/-- Python `record[key] = value`: replace the binding if the key is
present, otherwise append it (dicts keep insertion order). -/
def dictSet : PyRecord → String → PyVal → PyRecord
  | [], k, v => [(k, v)]
  | (k', v') :: rest, k, v =>
    if k' = k then (k, v) :: rest else (k', v') :: dictSet rest k v

/-- Python truthiness of a value (`bool(v)`). -/
def pyTruthy : PyVal → Bool
  | .vNone => false
  | .vBool b => b
  | .vInt n => n != 0
  | .vNum q => q != 0
  | .vStr s => s != ""
  | .vPair _ _ => true
  | .vList xs => !xs.isEmpty

/-- Numeric normalisation used by Python `==`: `bool` compares as 0/1 and
`int` compares with `float`. -/
def normAtom : PyAtom → PyAtom
  | .aBool b => .aNum (if b then 1 else 0)
  | .aInt n => .aNum (n : Rat)
  | a => a

def normItem : PyItem → PyItem
  | .iAtom a => .iAtom (normAtom a)
  | .iPair i l => .iList [normAtom (.aInt i), .aStr l]
  | .iList xs => .iList (xs.map normAtom)

def pyNorm : PyVal → PyVal
  | .atom a => .atom (normAtom a)
  | .vPair i l => .vList [.iAtom (normAtom (.aInt i)), .iAtom (.aStr l)]
  | .vList xs => .vList (xs.map normItem)

/-- Python `==` on the modelled value domain (numeric cross-type equality
included; sequences compare elementwise). -/
def pyEq (a b : PyVal) : Bool := decide (pyNorm a = pyNorm b)

/-- ASCII model of the regex class `\w`. -/
def isWordChar (c : Char) : Bool := c.isAlphanum || c == '_'

/-- Strip leading and trailing whitespace (Python `str.strip()`). -/
def stripChars (cs : List Char) : List Char :=
  ((cs.dropWhile Char.isWhitespace).reverse.dropWhile Char.isWhitespace).reverse

/-- Python `str.split()` with no argument: split on whitespace runs,
dropping empty fields. -/
def splitWsAux : List Char → List Char → List String
  | [], acc => if acc.isEmpty then [] else [String.mk acc.reverse]
  | c :: rest, acc =>
    if c.isWhitespace then
      if acc.isEmpty then splitWsAux rest []
      else String.mk acc.reverse :: splitWsAux rest []
    else splitWsAux rest (c :: acc)

def splitWs (cs : List Char) : List String := splitWsAux cs []

/-- Python `s.split(' ', 1)`: split at the first literal space only. -/
def splitFirstSpace (s : String) : String × Option String :=
  let cs := s.toList
  if cs.contains ' ' then
    (String.mk (cs.takeWhile (· != ' ')),
     some (String.mk ((cs.dropWhile (· != ' ')).drop 1)))
  else (s, none)

/-- Python `str.title()` restricted to ASCII letters: the first letter of
every letter run is uppercased, the rest lowercased. -/
def titleAux : List Char → Bool → List Char
  | [], _ => []
  | c :: rest, prevAlpha =>
    (if c.isAlpha then (if prevAlpha then c.toLower else c.toUpper) else c)
      :: titleAux rest c.isAlpha

def pyTitle (s : String) : String := String.mk (titleAux s.toList false)

/-- Decimal-ish rendering of a modelled float.  Python renders floats in
decimal; no claim below depends on this string, so integral floats are
rendered exactly and other rationals fall back to `num/den`. -/
def ratStr (q : Rat) : String :=
  if q.den = 1 then toString q.num ++ ".0"
  else toString q.num ++ "/" ++ toString q.den

def pyQuoteChar : Char := Char.ofNat 39

/-- Python `repr()` of a scalar. -/
def atomRepr : PyAtom → String
  | .aNone => "None"
  | .aBool b => if b then "True" else "False"
  | .aInt n => toString n
  | .aNum q => ratStr q
  | .aStr s => String.singleton pyQuoteChar ++ s ++ String.singleton pyQuoteChar

def itemRepr : PyItem → String
  | .iAtom a => atomRepr a
  | .iPair i l =>
      "[" ++ toString i ++ ", " ++ String.singleton pyQuoteChar ++ l
        ++ String.singleton pyQuoteChar ++ "]"
  | .iList xs => "[" ++ String.intercalate ", " (xs.map atomRepr) ++ "]"

/-- Python `str(v)` on the modelled domain. -/
def pyStrOf : PyVal → String
  | .vStr s => s
  | .atom a => atomRepr a
  | .vPair i l =>
      "[" ++ toString i ++ ", " ++ String.singleton pyQuoteChar ++ l
        ++ String.singleton pyQuoteChar ++ "]"
  | .vList xs => "[" ++ String.intercalate ", " (xs.map itemRepr) ++ "]"

/-- Computations that may raise a Python exception. -/
abbrev Exc := Except Unit

namespace DataValidator

/-- Characters allowed in the local part of the email regex in
src/utils/validators.py (`[a-zA-Z0-9._%+-]`). -/
def emailLocalChar (c : Char) : Bool :=
  c.isAlphanum || c == '.' || c == '_' || c == '%' || c == '+' || c == '-'

/-- Characters allowed in the domain part (`[a-zA-Z0-9.-]`). -/
def emailDomainChar (c : Char) : Bool :=
  c.isAlphanum || c == '.' || c == '-'

/-- Full-anchor match of the regex
`^[a-zA-Z0-9._%+-]+@[a-zA-Z0-9.-]+\.[a-zA-Z]{2,}$`:
exactly one at-sign; a nonempty local part over its class; a domain over
its class ending in a dot followed by at least two letters, with at least
one domain character before that dot.  Only the last dot can start the
all-letter tail, so checking the last dot is equivalent to the regex with
backtracking. -/
def matchEmail (cs : List Char) : Bool :=
  cs.count '@' == 1 &&
  (let l := cs.takeWhile (· != '@')
   let d := (cs.dropWhile (· != '@')).drop 1
   !l.isEmpty && l.all emailLocalChar && d.all emailDomainChar &&
   d.contains '.' &&
   (let tld := (d.reverse.takeWhile (· != '.')).reverse
    let pre := d.take (d.length - (tld.length + 1))
    !pre.isEmpty && tld.all Char.isAlpha && decide (tld.length ≥ 2)))

/-- Model of `DataValidator.validate_email`: falsy input gives `None`;
a string is stripped, lowercased and matched against the pattern; a
truthy non-string raises (`.strip()` on a non-string). -/
def validate_email (email : PyVal) : Exc (Option String) :=
  if !pyTruthy email then pure none
  else match email with
    | .vStr s =>
      let cleaned := String.mk ((stripChars s.toList).map Char.toLower)
      if matchEmail cleaned.toList then pure (some cleaned) else pure none
    | _ => throw ()

/-- Model of `DataValidator.validate_phone`: falsy input gives `None`;
a string is reduced to its digits (`re.sub(r'\D', '', phone)`) and kept
only when at least 8 digits remain; a truthy non-string raises. -/
def validate_phone (phone : PyVal) : Exc (Option String) :=
  if !pyTruthy phone then pure none
  else match phone with
    | .vStr s =>
      let digits := s.toList.filter Char.isDigit
      if decide (digits.length ≥ 8) then pure (some (String.mk digits))
      else pure none
    | _ => throw ()

/-- Model of `DataValidator.validate_name`: falsy input gives `None`;
characters outside `[\w\s-]` are removed, whitespace is collapsed to
single spaces, and an empty result gives `None`. -/
def validate_name (name : PyVal) : Exc (Option String) :=
  if !pyTruthy name then pure none
  else match name with
    | .vStr s =>
      let kept := s.toList.filter (fun c => isWordChar c || c.isWhitespace || c == '-')
      let joined := String.intercalate " " (splitWs kept)
      if joined == "" then pure none else pure (some joined)
    | _ => throw ()

end DataValidator

/-- Embed an optional validator result as the Python value stored in a
dict (`None` or the string). -/
def optToVal : Option String → PyVal
  | none => .vNone
  | some s => .vStr s

namespace ContactMapper

/-- Body of `ContactMapper.map_contact` (src/core/data_mapper.py, lines
9-47) up to the final `try/except` and the final truthiness filter:
validate and split the name, validate email/phone/mobile, and build the
Zoho contact dict in source order, appending `Email` only when valid.
Returns `none` when name validation fails. -/
def map_contact_core (odoo_contact : PyRecord) : Exc (Option PyRecord) := do
  let fullName? ← DataValidator.validate_name (rget odoo_contact "name" (.vStr ""))
  match fullName? with
  | none => return none
  | some full_name =>
    let parts := splitFirstSpace full_name
    let first_name := parts.1
    let last_name := (parts.2).getD "N/A"
    let email ← DataValidator.validate_email (rget odoo_contact "email" .vNone)
    let phone ← DataValidator.validate_phone (rget odoo_contact "phone" .vNone)
    let mobile ← DataValidator.validate_phone (rget odoo_contact "mobile" .vNone)
    let zoho_contact : PyRecord := [
      ("First_Name", .vStr first_name),
      ("Last_Name", .vStr last_name),
      ("Phone", optToVal phone),
      ("Mobile", optToVal mobile),
      ("Description", rget odoo_contact "comment" (.vStr "")),
      ("Odoo_ID", rget odoo_contact "contact_id" .vNone),
      ("Lead_Source", .vStr "Odoo Migration"),
      ("Contact_Type", .vStr "Imported Contact")]
    let zoho_contact :=
      match email with
      | some e => dictSet zoho_contact "Email" (.vStr e)
      | none => zoho_contact
    return some zoho_contact

/-- Model of `ContactMapper.map_contact`: run the body, keep only truthy
values (`{k: v for k, v in ... if v}`), and collapse any raised exception
to `None` (the `except` clause). -/
def map_contact (odoo_contact : PyRecord) : Option PyRecord :=
  match map_contact_core odoo_contact with
  | .ok (some z) => some (z.filter (fun kv => pyTruthy kv.2))
  | .ok none => none
  | .error _ => none

end ContactMapper

/-- Python `isinstance(v, (list, tuple))` on the modelled domain. -/
def isinstanceList : PyVal → Bool
  | .vPair _ _ => true
  | .vList _ => true
  | _ => false

/-- Subscript `v[1]` of a list-like value; raises `IndexError` when the
list is shorter than 2 (no other shapes reach this helper). -/
def index1 : PyVal → Exc PyVal
  | .vPair _ l => .ok (.vStr l)
  | .vList (_ :: x :: _) => .ok x.toVal
  | _ => .error ()

/-- The guarded unwrap pattern `v[1] if isinstance(v, (list, tuple)) and
len(v) > 1 else ''` used for `type_id`, `property_community_id` and
`property_sub_community_id` in `PropertyMapper.map_property`. -/
def relLenChecked : PyVal → PyVal
  | .vPair _ l => .vStr l
  | .vList (_ :: x :: _) => x.toVal
  | _ => .vStr ""

/-- The unguarded pattern `r.get(k, [False, ''])[1] if
isinstance(r.get(k), (list, tuple)) else ''` used for `owner_id`,
`country_id`, `state_id` and `city_id`: no length check, so a list-like
value shorter than 2 raises `IndexError`. -/
def relCond (r : PyRecord) (k : String) : Exc PyVal :=
  let v := rget r k .vNone
  if isinstanceList v then index1 v else .ok (.vStr "")

namespace PropertyMapper

def amenity_fields : List String :=
  ["gym", "swimming_pool", "beach", "medical_center", "schools",
   "shopping_malls", "restaurants", "marina", "golf_course"]

/-- Model of `PropertyMapper._get_amenities_string`: boolean amenity
fields become title-cased names; `facilities_ids`, when list-like, adds
`str(f)` for each element; everything is joined with semicolons. -/
def get_amenities_string (r : PyRecord) : String :=
  let base := (amenity_fields.filter (fun f => pyTruthy (rget r f .vNone))).map
    (fun f => pyTitle (String.mk (f.toList.map (fun c => if c = '_' then ' ' else c))))
  let fac : List String :=
    match rget r "facilities_ids" .vNone with
    | .vPair i l => [pyStrOf (.vInt i), pyStrOf (.vStr l)]
    | .vList xs => xs.map (fun x => pyStrOf x.toVal)
    | _ => []
  let amenities := base ++ fac
  if amenities.isEmpty then "" else String.intercalate ";" amenities

/-- Body of `PropertyMapper.map_property` (src/core/data_mapper.py,
lines 154-215) up to the final `try/except` and truthiness filter:
reject non-freehold/leasehold ownership, unwrap the relation fields,
and build the property dict in source order. -/
def map_property_core (odoo_property : PyRecord) : Exc (Option PyRecord) := do
  let ownership_type := rget odoo_property "ownership_type" .vNone
  if !(pyEq ownership_type (.vStr "freehold") || pyEq ownership_type (.vStr "leashold")) then
    return none
  let dfltRel : PyVal := .vList [.iAtom (.aBool false), .iAtom (.aStr "")]
  let property_type := relLenChecked (rget odoo_property "type_id" dfltRel)
  let community := relLenChecked (rget odoo_property "property_community_id" dfltRel)
  let sub_community := relLenChecked (rget odoo_property "property_sub_community_id" dfltRel)
  let owner ← relCond odoo_property "owner_id"
  let country ← relCond odoo_property "country_id"
  let state ← relCond odoo_property "state_id"
  let city ← relCond odoo_property "city_id"
  let la := rget odoo_property "latitude" .vNone
  let lo := rget odoo_property "longitude" .vNone
  let property_data : PyRecord := [
    ("Properties / Units Id", .vStr ("odoo_" ++ pyStrOf (rget odoo_property "id" (.vStr "")))),
    ("Unit Code", rget odoo_property "property_code" (.vStr "")),
    ("Properties / Units Owner", owner),
    ("Status", .vStr "false"),
    ("Created Time", rget odoo_property "create_date" (.vStr "")),
    ("Modified Time", rget odoo_property "write_date" (.vStr "")),
    ("Tag", .vStr (if pyEq ownership_type (.vStr "freehold") then "Freehold" else "Leasehold")),
    ("Unit Name", rget odoo_property "name" (.vStr "")),
    ("Unit Types", property_type),
    ("Property Details",
      .vStr (if pyEq (rget odoo_property "property_type" .vNone) (.vStr "sale")
             then "For Sale" else "For Lease")),
    ("Building Name", rget odoo_property "name" (.vStr "")),
    ("Property Description", rget odoo_property "property_overview" (.vStr "")),
    ("Property Description (AR)", .vStr ""),
    ("Ref.No", rget odoo_property "ref_no" (.vStr "")),
    ("Community", community),
    ("Sub Community", sub_community),
    ("Country", country),
    ("State", state),
    ("City", city),
    ("Covered Area", .vStr (pyStrOf (rget odoo_property "builtup_area" (.vStr "")))),
    ("Other Area", .vStr (pyStrOf (rget odoo_property "plot_area" (.vStr "")))),
    ("Handover Date", rget odoo_property "handover_date" (.vStr "")),
    ("Possession Status",
      .vStr (if pyTruthy (rget odoo_property "off_plan_property" .vNone)
             then "Under Construction" else "Ready")),
    ("Maintenance fee", rget odoo_property "maintanence_fee_per_sq_ft" (.vStr "")),
    ("Private Amenities", .vStr (get_amenities_string odoo_property)),
    ("Geopoints",
      if pyTruthy la && pyTruthy lo then .vStr (pyStrOf la ++ "," ++ pyStrOf lo)
      else .vStr "")]
  return some property_data

/-- Model of `PropertyMapper.map_property`: run the body, keep only
truthy values (`{k: v for k, v in ... if v}`), and collapse a raised
exception to `None`. -/
def map_property (odoo_property : PyRecord) : Option PyRecord :=
  match map_property_core odoo_property with
  | .ok (some z) => some (z.filter (fun kv => pyTruthy kv.2))
  | .ok none => none
  | .error _ => none

end PropertyMapper

namespace UnitMapper

def PROPERTY_TYPE_MAPPING : List (String × String) :=
  [("apartment", "Apartment"), ("villa", "Villa"), ("warehouse", "Warehouse"),
   ("commercial_villa", "Commercial Villa"),
   ("mixed_used_building", "Mixed Used Building"),
   ("commercial_building", "Commercial Building"), ("townhouse", "Townhouse"),
   ("plot", "Residential Land"), ("commercial_plot", "Commercial Land"),
   ("residential_building", "Residential Building"), ("retail", "Retail"),
   ("office", "Office"), ("labour_camp", "Labour Camp"),
   ("multiple_units", "Bulk Units")]

def BEDROOM_MAPPING : List (String × String) :=
  [("Studio", "Studio"), ("0", "0"), ("1", "1"), ("2", "2"), ("3", "3"),
   ("4", "4"), ("5", "5"), ("6", "6"), ("7", "7"), ("8", "8"),
   ("NULL", "N/A"), ("n/a", "N/A")]

def PROPERTY_STATUS_MAPPING : List (String × String) :=
  [("draft", "Available"), ("book", "Reserved"), ("normal", "Leased"),
   ("close", "Sold"), ("sold", "Sold"), ("cancel", "Cancelled"),
   ("block", "Blocked"), ("upcoming", "Upcoming")]

def PROPERTY_DETAILS_MAPPING : List (String × String) :=
  [("sale", "For Sale"), ("rent", "For Rent"), ("both", "None")]

def FURNISHING_MAPPING : List (String × String) :=
  [("none", "NO"), ("semi_furnished", "YES"), ("full_furnished", "YES")]

/-- Python `table.get(key, default)` on the fixed string tables. -/
def tableGet (tbl : List (String × String)) (k : String) (d : PyVal) : PyVal :=
  match tbl.lookup k with
  | some v => .vStr v
  | none => d

/-- Model of `UnitMapper.get_relation_name` (src/core/data_mapper.py,
lines 437-441): `relation[1]` when the value is list-like with more than
one element, otherwise the empty string. -/
def get_relation_name : PyVal → PyVal
  | .vPair _ l => .vStr l
  | .vList (_ :: x :: _) => x.toVal
  | _ => .vStr ""

def digitsToNat (cs : List Char) : Nat :=
  cs.foldl (fun n c => 10 * n + (c.toNat - 48)) 0

/-- Python `float(s)` on a string of digits and dots: defined when there
is at most one dot and at least one digit. -/
def parseCleanedFloat (cs : List Char) : Option Rat :=
  if cs.count '.' ≤ 1 && cs.any Char.isDigit then
    let ip := cs.takeWhile (· != '.')
    let fp := (cs.dropWhile (· != '.')).drop 1
    some ((digitsToNat ip : Rat) + (digitsToNat fp : Rat) / ((10 : Rat) ^ fp.length))
  else none

/-- Model of `UnitMapper.clean_currency`: numbers (including bools, which
are ints in Python) become floats; strings are stripped to digits and
dots and parsed, with a parse failure or empty remainder giving `None`;
every other shape gives `None`. -/
def clean_currency : PyVal → PyVal
  | .vBool b => .vNum (if b then 1 else 0)
  | .vInt n => .vNum (n : Rat)
  | .vNum q => .vNum q
  | .vStr s =>
    let cleaned := s.toList.filter (fun c => c.isDigit || c == '.')
    match parseCleanedFloat cleaned with
    | some q => .vNum q
    | none => .vNone
  | _ => .vNone

/-- Python `v.lower()`: defined only on strings; a truthy non-string
reaching it raises `AttributeError`. -/
def pyLower : PyVal → Exc String
  | .vStr s => .ok (String.mk (s.toList.map Char.toLower))
  | _ => .error ()

/-- Iterating a Python value (`for am in v`): lists yield their items, a
relation pair yields its two elements, a string yields its characters,
anything else raises `TypeError`. -/
def pyIterItems : PyVal → Exc (List PyItem)
  | .vList xs => .ok xs
  | .vPair i l => .ok [.iAtom (.aInt i), .iAtom (.aStr l)]
  | .vStr s => .ok (s.toList.map (fun c => .iAtom (.aStr (String.singleton c))))
  | _ => .error ()

/-- One element of `[am[1] for am in lst if isinstance(am, (list, tuple))]`
followed by `';'.join(...)`: non-list-like elements are filtered out; a
list-like element shorter than 2 raises `IndexError`; a non-string `am[1]`
makes the later join raise `TypeError`. -/
def amItemLabel : PyItem → Exc (Option String)
  | .iPair _ l => .ok (some l)
  | .iList (_ :: y :: _) =>
    match y with
    | .aStr s => .ok (some s)
    | _ => .error ()
  | .iList _ => .error ()
  | .iAtom _ => .ok none

/-- The two amenity blocks of `map_unit`: when the source field is
truthy, collect the labels of its list-like elements and, if any,
set the target field to their semicolon join. -/
def addAmenities (z : PyRecord) (u : PyRecord) (key field : String) : Exc PyRecord := do
  if pyTruthy (rget u key .vNone) then
    let items ← pyIterItems (rget u key .vNone)
    let labels ← items.mapM amItemLabel
    let labels := labels.reduceOption
    if labels.isEmpty then return z
    else return dictSet z field (.vStr (String.intercalate ";" labels))
  else return z

/-- Body of `UnitMapper.map_unit` (src/core/data_mapper.py, lines
313-417) up to the final `try/except` and the final emptiness filter:
validate name and ownership, unwrap relations, build the unit dict in
source order, handle the amenity blocks, and re-set `Unit_Code` for
creates. -/
def map_unit_core (odoo_unit : PyRecord) (is_update : Bool) : Exc (Option PyRecord) := do
  if !pyTruthy (rget odoo_unit "name" .vNone) then return none
  let ownership_type := rget odoo_unit "ownership_type" .vNone
  if !(pyEq ownership_type (.vStr "freehold") || pyEq ownership_type (.vStr "leashold")) then
    return none
  let community := get_relation_name (rget odoo_unit "property_community_id" .vNone)
  let sub_community := get_relation_name (rget odoo_unit "property_sub_community_id" .vNone)
  let typeLower ← pyLower (rget odoo_unit "type" (.vStr ""))
  let bedroomStr := pyStrOf (rget odoo_unit "bedroom" (.vStr ""))
  let la := rget odoo_unit "latitude" .vNone
  let lo := rget odoo_unit "longitude" .vNone
  let zoho_unit : PyRecord := [
    ("Unit_Code", rget odoo_unit "property_code" .vNone),
    ("Property_Title", rget odoo_unit "name" .vNone),
    ("Unit_No", rget odoo_unit "unit_number" .vNone),
    ("Ref_No", rget odoo_unit "ref_no" .vNone),
    ("Locality", community),
    ("Sub_Locality", sub_community),
    ("City", get_relation_name (rget odoo_unit "city_id" .vNone)),
    ("State", get_relation_name (rget odoo_unit "state_id" .vNone)),
    ("Country", get_relation_name (rget odoo_unit "country_id" .vNone)),
    ("Unit_Types",
      tableGet PROPERTY_TYPE_MAPPING typeLower
        (get_relation_name (rget odoo_unit "unit_type_id" .vNone))),
    ("Status", rget odoo_unit "state" .vNone),
    ("Possession_Status",
      .vStr (if pyTruthy (rget odoo_unit "off_plan_property" .vNone)
             then "Under Construction" else "Ready")),
    ("Bedrooms", tableGet BEDROOM_MAPPING bedroomStr (.vStr bedroomStr)),
    ("Bathrooms", .vStr (pyStrOf (rget odoo_unit "bathroom" (.vStr "")))),
    ("Floor_No", rget odoo_unit "floor_number" .vNone),
    ("Total_Area", rget odoo_unit "total_area" .vNone),
    ("Internal_Area_UOM", rget odoo_unit "builtup_area" .vNone),
    ("External_Area_UOM", rget odoo_unit "plot_area" .vNone),
    ("Unit_Sale_Price", clean_currency (rget odoo_unit "selling_price" .vNone)),
    ("Rent_Amount", clean_currency (rget odoo_unit "rent_per_year" .vNone)),
    ("Price_Per_UOM", clean_currency (rget odoo_unit "price_per_sqt_foot" .vNone)),
    ("Maintenance_fee", clean_currency (rget odoo_unit "service_charge" .vNone)),
    ("No_of_Cheques", rget odoo_unit "no_of_cheques" .vNone),
    ("Payment_Allocated", clean_currency (rget odoo_unit "payment_allocated" .vNone)),
    ("Total_Value", clean_currency (rget odoo_unit "total_price" .vNone)),
    ("Discount_Amount", clean_currency (rget odoo_unit "discount" .vNone)),
    ("Created_On", rget odoo_unit "create_date" .vNone),
    ("Listing_Date", rget odoo_unit "listing_date" .vNone),
    ("Property_Description", rget odoo_unit "marketing_desc" .vNone),
    ("Property_Description_AR", rget odoo_unit "marketing_desc_arabic" .vNone),
    ("Property_Title_AR", rget odoo_unit "name_arabic" .vNone),
    ("Permit_Number", rget odoo_unit "permit_number" .vNone),
    ("Geopoints",
      if pyTruthy la && pyTruthy lo then .vStr (pyStrOf la ++ "," ++ pyStrOf lo)
      else .vStr ""),
    ("Agent_Name", rget odoo_unit "agent_name" .vNone),
    ("Agent_Email", rget odoo_unit "agent_email" .vNone),
    ("Agent_Phone", rget odoo_unit "agent_phone" .vNone),
    ("Agent_ID", rget odoo_unit "agent_id" .vNone),
    ("Properties_Units_Id", .vStr ("odoo_" ++ pyStrOf (rget odoo_unit "id" .vNone))),
    ("Exchange_Rate", clean_currency (rget odoo_unit "exchange_rate" .vNone)),
    ("Currency", rget odoo_unit "currency" (.vStr "AED"))]
  let zoho_unit ← addAmenities zoho_unit odoo_unit "amenities_ids" "Private_Amenities"
  let zoho_unit ← addAmenities zoho_unit odoo_unit "commercial_amenities_ids" "Commercial_Amenities"
  let zoho_unit :=
    if !is_update then dictSet zoho_unit "Unit_Code" (rget odoo_unit "property_code" .vNone)
    else zoho_unit
  return some zoho_unit

/-- The final cleanup filter of `map_unit`:
`{k: v for k, v in zoho_unit.items() if v not in (None, '', False)}`
(membership through Python `==`, so `0` and `0.0` are dropped too). -/
def unitKeep (v : PyVal) : Bool :=
  !(pyEq v .vNone || pyEq v (.vStr "") || pyEq v (.vBool false))

/-- Model of `UnitMapper.map_unit`: run the body, apply the cleanup
filter, and collapse a raised exception to `None`. -/
def map_unit (odoo_unit : PyRecord) (is_update : Bool) : Option PyRecord :=
  match map_unit_core odoo_unit is_update with
  | .ok (some z) => some (z.filter (fun kv => unitKeep kv.2))
  | .ok none => none
  | .error _ => none

end UnitMapper

namespace ZohoClient

/-- One regional Zoho endpoint (base URL for the CRM API and URL of the
token service). -/
structure ZohoDomain where
  base_url : String
  auth_url : String
deriving Repr, DecidableEq, Inhabited

/-- The fixed ordered endpoint list from `ZohoClient.__init__`
(src/core/zoho_client.py, lines 18-35). -/
def domains : List ZohoDomain :=
  [⟨"https://www.zohoapis.com/crm/v2", "https://accounts.zoho.com/oauth/v2/token"⟩,
   ⟨"https://www.zohoapis.eu/crm/v2", "https://accounts.zoho.eu/oauth/v2/token"⟩,
   ⟨"https://www.zohoapis.com.au/crm/v2", "https://accounts.zoho.com.au/oauth/v2/token"⟩,
   ⟨"https://www.zohoapis.in/crm/v2", "https://accounts.zoho.in/oauth/v2/token"⟩]

/-- The token-relevant client state: the access token and the
currently selected domain. -/
structure ZohoState where
  access_token : Option String
  current_domain : Option ZohoDomain
deriving Repr, DecidableEq, Inhabited

/-- Model of `ZohoClient.try_refresh_token`: `tokenOf d` is `some tok`
exactly when posting the refresh grant to domain `d` yields HTTP 200 with
an `access_token` field (any exception or other response is `none`).  On
success the token and current domain are stored and `True` is returned;
otherwise the state is unchanged and `False` is returned. -/
def try_refresh_token (tokenOf : ZohoDomain → Option String) (st : ZohoState)
    (d : ZohoDomain) : Bool × ZohoState :=
  match tokenOf d with
  | some tok => (true, ⟨some tok, some d⟩)
  | none => (false, st)

/-- The loop of `ZohoClient.refresh_token` over a remaining domain list:
stop at the first domain that yields a token; raise when the list is
exhausted. -/
def refresh_token_loop (tokenOf : ZohoDomain → Option String) (st : ZohoState) :
    List ZohoDomain → Exc ZohoState
  | [] => .error ()
  | d :: rest =>
    match try_refresh_token tokenOf st d with
    | (true, st') => .ok st'
    | (false, st') => refresh_token_loop tokenOf st' rest

/-- Model of `ZohoClient.refresh_token` (src/core/zoho_client.py, lines
69-78): try every domain in order under the token lock and raise if all
fail. -/
def refresh_token (tokenOf : ZohoDomain → Option String) (st : ZohoState) :
    Exc ZohoState :=
  refresh_token_loop tokenOf st domains

/-- Outcome of one HTTP attempt of a client operation, indexed by the
attempt number: the request (or response decoding) raised, or a response
with a status code and a decoded body came back. -/
inductive ZAttempt (β : Type) where
  | exn
  | resp (status : Nat) (body : β)
deriving Repr, DecidableEq

/-- Observable result of running one client operation: `outcome = none`
means the recursion never returned within the given stack budget
(`fuel`); `some r` is the Python return value.  `requests`, `refreshes`
and `sleeps` count the HTTP attempts, `refresh_token` calls and
`time.sleep(1)` calls performed. -/
structure CallStats (β : Type) where
  outcome : Option β
  requests : Nat
  refreshes : Nat
  sleeps : Nat
deriving Repr, DecidableEq

/-- Model of `ZohoClient.create_record` (src/core/zoho_client.py, lines
80-107).  `server rc` is the outcome of the attempt made with
`retry_count = rc`.  A 401 response with `retry_count < 3` refreshes the
token and recurses with `retry_count + 1`; any exception with
`retry_count < 3` sleeps one second and recurses likewise; otherwise the
decoded body (even a 401 body once retries are exhausted) or `None` is
returned.  `fuel` bounds the recursion depth; the bound-retry theorems
show fuel 4 always suffices, so the fuel is not an extra assumption. -/
def create_record (server : Nat → ZAttempt Nat) : Nat → Nat → CallStats (Option Nat)
  | 0, _ => ⟨none, 0, 0, 0⟩
  | fuel + 1, rc =>
    match server rc with
    | .exn =>
      if rc < 3 then
        let s := create_record server fuel (rc + 1)
        ⟨s.outcome, s.requests + 1, s.refreshes, s.sleeps + 1⟩
      else ⟨some none, 1, 0, 0⟩
    | .resp status body =>
      if status = 401 ∧ rc < 3 then
        let s := create_record server fuel (rc + 1)
        ⟨s.outcome, s.requests + 1, s.refreshes + 1, s.sleeps⟩
      else ⟨some (some body), 1, 0, 0⟩

/-- Model of `ZohoClient.update_record` (src/core/zoho_client.py, lines
287-310).  There is no attempt counter: every 401 refreshes the token and
recurses unconditionally, any exception returns `None` at once, and a
non-401 response returns its body.  `outcome = none` records that the
recursion consumed the whole stack budget without returning. -/
def update_record (server : Nat → ZAttempt Nat) : Nat → Nat → CallStats (Option Nat)
  | 0, _ => ⟨none, 0, 0, 0⟩
  | fuel + 1, k =>
    match server k with
    | .exn => ⟨some none, 1, 0, 0⟩
    | .resp status body =>
      if status = 401 then
        let s := update_record server fuel (k + 1)
        ⟨s.outcome, s.requests + 1, s.refreshes + 1, s.sleeps⟩
      else ⟨some (some body), 1, 0, 0⟩

/-- Shared model of `ZohoClient.get_existing_unit` (lines 226-255) and
`ZohoClient.get_contact_by_odoo_id` (lines 257-285): identical retry
shape to `update_record` (unconditional recursion on 401, `None` on
exception), with the success body already decoded to
`data['data'][0]`-or-`None`. -/
def search_record (server : Nat → ZAttempt (Option Nat)) :
    Nat → Nat → CallStats (Option Nat)
  | 0, _ => ⟨none, 0, 0, 0⟩
  | fuel + 1, k =>
    match server k with
    | .exn => ⟨some none, 1, 0, 0⟩
    | .resp status body =>
      if status = 401 then
        let s := search_record server fuel (k + 1)
        ⟨s.outcome, s.requests + 1, s.refreshes + 1, s.sleeps⟩
      else ⟨some body, 1, 0, 0⟩

/-- A server that answers every attempt with HTTP 401 (an invalid or
expired token that refreshing never fixes). -/
def all401 : Nat → ZAttempt Nat := fun _ => .resp 401 0

def all401s : Nat → ZAttempt (Option Nat) := fun _ => .resp 401 none

/-- A server on which every attempt raises (for example a network that is
down). -/
def allExn : Nat → ZAttempt Nat := fun _ => .exn

end ZohoClient

namespace OdooClient

/-- Connection-pool state of `OdooClient`: the deque of pooled XML-RPC
connections (identified by numbers), a supply of fresh connection ids for
`_create_connection`, and the deque bound `maxlen = max_workers`. -/
structure PoolState where
  pool : List Nat
  nextId : Nat
  maxlen : Nat
deriving Repr, DecidableEq

/-- Model of `OdooClient._create_connection`: produce a fresh connection. -/
def create_connection (s : PoolState) : Nat × PoolState :=
  (s.nextId, { s with nextId := s.nextId + 1 })

/-- Model of `OdooClient._get_connection` (src/core/odoo_client.py, lines
180-185): pop from the left of the deque, or create a fresh connection
when the pool is empty. -/
def get_connection (s : PoolState) : Nat × PoolState :=
  match s.pool with
  | [] => create_connection s
  | c :: rest => (c, { s with pool := rest })

/-- Model of `OdooClient._return_connection` (lines 187-190): append on
the right; a `deque` with `maxlen` silently evicts the leftmost element
when it is already full. -/
def return_connection (s : PoolState) (c : Nat) : PoolState :=
  if s.pool.length = s.maxlen then { s with pool := s.pool.drop 1 ++ [c] }
  else { s with pool := s.pool ++ [c] }

/-- Python `try/finally`: run the body, then the finaliser on the
resulting state, whether or not the body raised. -/
def pyTryFinally {σ α : Type} (body : σ → α × σ) (fin : σ → σ) (s : σ) : α × σ :=
  let r := body s
  (r.1, fin r.2)

/-- Model of `OdooClient._fetch_batch` (lines 192-226): draw a
connection, run the two-step search/read fetch (its outcome — the record
list, or a raised exception that the `except` clause re-raises — is the
parameter `outcome`), and return the connection in the `finally` block in
either case. -/
def fetch_batch (outcome : Exc (List Int)) (s : PoolState) :
    Exc (List Int) × PoolState :=
  let cs := get_connection s
  pyTryFinally (fun st => (outcome, st)) (fun st => return_connection st cs.1) cs.2

/-- The id list of `execute_kw(model, 'search', [domain], {order: 'id'})`
without offset/limit: ids matching the filter, ascending. -/
def searchIds (db : List Int) (p : Int → Bool) : List Int :=
  List.insertionSort (· ≤ ·) (db.filter p)

/-- Model of `execute_kw(model, 'search_count', [domain])`. -/
def search_count (db : List Int) (p : Int → Bool) : Nat :=
  (db.filter p).length

/-- The records of one page job: `search` with the job offset/limit
ordered by id, then `read` on the resulting ids (records are identified
with their ids here). -/
def pageRecords (db : List Int) (p : Int → Bool) (offset limit : Nat) : List Int :=
  ((searchIds db p).drop offset).take limit

/-- The job offsets `range(0, total, batch_size)` built in
`fetch_records`; Python `range` raises `ValueError` on step 0. -/
def batchOffsets (total b : Nat) : Option (List Nat) :=
  if b = 0 then none
  else some ((List.range ((total + b - 1) / b)).map (· * b))

/-- Model of `OdooClient.fetch_records` (src/core/odoo_client.py, lines
228-276) in the failure-free case, with the pages concatenated in job
order: count, split `[0, total)` into `(offset, batch_size)` jobs, fetch
every page, concatenate.  `none` models the `ValueError` raised (and
re-raised by the outer `except`) for batch size 0.  The out-of-order
completion of `as_completed` is covered by the theorems, which quantify
over permutations of the job list. -/
def fetch_records (db : List Int) (p : Int → Bool) (batch_size : Nat) :
    Option (List Int) :=
  let total_count := search_count db p
  if total_count = 0 then some []
  else
    (batchOffsets total_count batch_size).map
      (fun offsets => (offsets.map (fun o => pageRecords db p o batch_size)).flatten)

end OdooClient

namespace MigrationManager

/-- The shared migration statistics of `MigrationManager`. -/
structure Counters where
  processed_count : Nat
  success_count : Nat
  error_count : Nat
  skipped_count : Nat
deriving Repr, DecidableEq

/-- Per-lead outcome of the collaborators inside the `try` of
`process_lead_batch`: the mapper returned `None`; the Zoho write reported
status success; the write returned a falsy or non-success result; or an
exception escaped (e.g. an `IndexError` while inspecting the result). -/
inductive LeadOutcome where
  | mapAbsent
  | writeSuccess
  | writeFailure
  | exn
deriving Repr, DecidableEq

/-- Counter updates of one iteration of `process_lead_batch`
(src/main.py, lines 81-115): a skip bumps only `skipped_count`; a
successful write bumps `success_count` and `processed_count`; a failed
write or an exception bumps `error_count` and `processed_count`. -/
def processLead (c : Counters) : LeadOutcome → Counters
  | .mapAbsent => { c with skipped_count := c.skipped_count + 1 }
  | .writeSuccess =>
    { c with success_count := c.success_count + 1,
             processed_count := c.processed_count + 1 }
  | .writeFailure =>
    { c with error_count := c.error_count + 1,
             processed_count := c.processed_count + 1 }
  | .exn =>
    { c with error_count := c.error_count + 1,
             processed_count := c.processed_count + 1 }

/-- Model of the loop of `MigrationManager.process_lead_batch`: the stop
event is checked before each lead and breaks out of the loop; otherwise
each lead updates the counters by its outcome. -/
def process_lead_batch (stop_event : Bool) (c : Counters) :
    List LeadOutcome → Counters
  | [] => c
  | l :: rest =>
    if stop_event then c else process_lead_batch stop_event (processLead c l) rest

/-- Progress line of `MigrationManager.log_progress` (src/main.py, lines
46-62): the processed total it reports. -/
def log_progress_processed (c : Counters) : Nat := c.processed_count

/-- One worker of the counter-race model.  A Python `self.x += 1` on a
plain attribute is a read of the counter followed by a write of the read
value plus one, with no lock around the pair (no `Lock` exists in
`MigrationManager`; the only locks in the program guard the Zoho token
and the Odoo connection pool). -/
inductive WorkerPhase where
  | ready
  | loaded (v : Nat)
  | finished
deriving Repr, DecidableEq

/-- Two batch workers about to perform one unsynchronised `+= 1` each on
the same shared counter. -/
structure RaceState where
  counter : Nat
  w1 : WorkerPhase
  w2 : WorkerPhase
deriving Repr, DecidableEq

/-- Execute one step of the chosen worker: `ready` reads the counter,
`loaded v` writes back `v + 1` and finishes. -/
def raceStep (s : RaceState) : Bool → RaceState
  | true =>
    match s.w1 with
    | .ready => { s with w1 := .loaded s.counter }
    | .loaded v => { s with w1 := .finished, counter := v + 1 }
    | .finished => s
  | false =>
    match s.w2 with
    | .ready => { s with w2 := .loaded s.counter }
    | .loaded v => { s with w2 := .finished, counter := v + 1 }
    | .finished => s

/-- Run an interleaving of the two workers from counter 0. -/
def runSchedule (sched : List Bool) : RaceState :=
  sched.foldl raceStep ⟨0, .ready, .ready⟩

end MigrationManager

/-! Helper lemmas shared by the claim theorems. -/

/-- Bounds for `create_record`: starting from any `retry_count ≤ 3` with
stack budget at least `4 - retry_count`, the call returns (the budget is
never exhausted), makes at most `4 - retry_count` requests, and performs
at most `3 - retry_count` refreshes and sleeps. -/
lemma create_record_bound (server : Nat → ZohoClient.ZAttempt Nat) :
    ∀ fuel rc, rc ≤ 3 → 4 - rc ≤ fuel →
      (ZohoClient.create_record server fuel rc).outcome ≠ none ∧
      (ZohoClient.create_record server fuel rc).requests ≤ 4 - rc ∧
      (ZohoClient.create_record server fuel rc).refreshes ≤ 3 - rc ∧
      (ZohoClient.create_record server fuel rc).sleeps ≤ 3 - rc := by
  intro fuel
  induction fuel with
  | zero => intro rc h1 h2; omega
  | succ n ih =>
    intro rc h1 h2
    rcases hs : server rc with _ | ⟨status, body⟩
    · by_cases h : rc < 3
      · have hr := ih (rc + 1) (by omega) (by omega)
        simp only [ZohoClient.create_record, hs, if_pos h]
        exact ⟨hr.1, by omega, by omega, by omega⟩
      · simp only [ZohoClient.create_record, hs, if_neg h]
        refine ⟨by simp, by omega, by omega, by omega⟩
    · by_cases h : status = 401 ∧ rc < 3
      · have hr := ih (rc + 1) (by omega) (by omega)
        simp only [ZohoClient.create_record, hs, if_pos h]
        exact ⟨hr.1, by omega, by omega, by omega⟩
      · simp only [ZohoClient.create_record, hs, if_neg h]
        refine ⟨by simp, by omega, by omega, by omega⟩

/-- Under a server that answers 401 forever, `update_record` exhausts any
stack budget: it never returns and issues one request (with one refresh)
per budget unit. -/
lemma update_record_all401 :
    ∀ fuel k, (ZohoClient.update_record ZohoClient.all401 fuel k).outcome = none ∧
      (ZohoClient.update_record ZohoClient.all401 fuel k).requests = fuel ∧
      (ZohoClient.update_record ZohoClient.all401 fuel k).refreshes = fuel := by
  intro fuel
  induction fuel with
  | zero => intro k; exact ⟨rfl, rfl, rfl⟩
  | succ n ih =>
    intro k
    have hr := ih (k + 1)
    have hstep : ZohoClient.update_record ZohoClient.all401 (n + 1) k =
        ⟨(ZohoClient.update_record ZohoClient.all401 n (k + 1)).outcome,
         (ZohoClient.update_record ZohoClient.all401 n (k + 1)).requests + 1,
         (ZohoClient.update_record ZohoClient.all401 n (k + 1)).refreshes + 1,
         (ZohoClient.update_record ZohoClient.all401 n (k + 1)).sleeps⟩ := rfl
    rw [hstep]
    exact ⟨hr.1, by dsimp only; omega, by dsimp only; omega⟩

/-- Same exhaustion for the search operations. -/
lemma search_record_all401 :
    ∀ fuel k, (ZohoClient.search_record ZohoClient.all401s fuel k).outcome = none ∧
      (ZohoClient.search_record ZohoClient.all401s fuel k).requests = fuel ∧
      (ZohoClient.search_record ZohoClient.all401s fuel k).refreshes = fuel := by
  intro fuel
  induction fuel with
  | zero => intro k; exact ⟨rfl, rfl, rfl⟩
  | succ n ih =>
    intro k
    have hr := ih (k + 1)
    have hstep : ZohoClient.search_record ZohoClient.all401s (n + 1) k =
        ⟨(ZohoClient.search_record ZohoClient.all401s n (k + 1)).outcome,
         (ZohoClient.search_record ZohoClient.all401s n (k + 1)).requests + 1,
         (ZohoClient.search_record ZohoClient.all401s n (k + 1)).refreshes + 1,
         (ZohoClient.search_record ZohoClient.all401s n (k + 1)).sleeps⟩ := rfl
    rw [hstep]
    exact ⟨hr.1, by dsimp only; omega, by dsimp only; omega⟩

/-- C1, claim as stated, is false: `update_record` (and the two search
operations) do not give up after 3 retries.  On a server that answers 401
on every attempt, a call that retried at most 3 times would have returned
after at most 4 requests; instead, with a stack budget of 5 the call has
made 5 requests and 5 token refreshes and still not returned. -/
theorem C1_unbounded_401_retry_counterexample :
    (ZohoClient.update_record ZohoClient.all401 5 0).outcome = none ∧
    (ZohoClient.update_record ZohoClient.all401 5 0).requests = 5 ∧
    (ZohoClient.update_record ZohoClient.all401 5 0).refreshes = 5 ∧
    (ZohoClient.search_record ZohoClient.all401s 5 0).outcome = none ∧
    (ZohoClient.search_record ZohoClient.all401s 5 0).requests = 5 := by
  decide

/-- C1 (amended): `create_record` bounds its 401/exception retries by the
`retry_count < 3` guard — for every server behaviour it returns within 4
requests and at most 3 token refreshes and 3 sleeps, and on an all-401
server it returns the 401 body after exactly 4 requests and 3 refreshes —
whereas `update_record`, `get_existing_unit` and `get_contact_by_odoo_id`
refresh and recurse on every 401 without any counter, so on an all-401
server they never give up: they consume any stack budget, one request and
one refresh per recursion level, without returning. -/
theorem C1_auth_retry_amended :
    (∀ (server : Nat → ZohoClient.ZAttempt Nat) (fuel : Nat), 4 ≤ fuel →
      (ZohoClient.create_record server fuel 0).outcome ≠ none ∧
      (ZohoClient.create_record server fuel 0).requests ≤ 4 ∧
      (ZohoClient.create_record server fuel 0).refreshes ≤ 3 ∧
      (ZohoClient.create_record server fuel 0).sleeps ≤ 3) ∧
    ZohoClient.create_record ZohoClient.all401 4 0 = ⟨some (some 0), 4, 3, 0⟩ ∧
    (∀ fuel, (ZohoClient.update_record ZohoClient.all401 fuel 0).outcome = none ∧
      (ZohoClient.update_record ZohoClient.all401 fuel 0).requests = fuel) ∧
    (∀ fuel, (ZohoClient.search_record ZohoClient.all401s fuel 0).outcome = none ∧
      (ZohoClient.search_record ZohoClient.all401s fuel 0).requests = fuel) := by
  refine ⟨?_, by decide, ?_, ?_⟩
  · intro server fuel hfuel
    have h := create_record_bound server fuel 0 (by omega) (by omega)
    exact ⟨h.1, by omega, by omega, by omega⟩
  · intro fuel
    have h := update_record_all401 fuel 0
    exact ⟨h.1, h.2.1⟩
  · intro fuel
    have h := search_record_all401 fuel 0
    exact ⟨h.1, h.2.1⟩

/-- Witness for C1 (amended) at a concrete server and budget. -/
theorem C1_auth_retry_amended_witness :
    (ZohoClient.create_record ZohoClient.allExn 4 0).outcome ≠ none ∧
    (ZohoClient.create_record ZohoClient.allExn 4 0).requests ≤ 4 ∧
    (ZohoClient.create_record ZohoClient.allExn 4 0).refreshes ≤ 3 ∧
    (ZohoClient.create_record ZohoClient.allExn 4 0).sleeps ≤ 3 :=
  C1_auth_retry_amended.1 ZohoClient.allExn 4 (by norm_num)

/-- C2, claim as stated, is false for `update_record`: on a server where
every attempt raises, the call makes exactly one request, sleeps zero
times, and returns `None` — it does not retry the transient failure at
all, let alone 3 times with a delay. -/
theorem C2_update_no_retry_counterexample :
    (ZohoClient.update_record ZohoClient.allExn 5 0).requests = 1 ∧
    (ZohoClient.update_record ZohoClient.allExn 5 0).sleeps = 0 ∧
    (ZohoClient.update_record ZohoClient.allExn 5 0).outcome = some none := by
  decide

/-- C2 (amended): only `create_record` retries transient failures — on a
server where every attempt raises it sleeps one second before each of its
3 retries and then returns `None` after 4 attempts — while
`update_record` returns `None` on the first exception without retrying,
whatever stack budget is available. -/
theorem C2_transient_retry_amended :
    ZohoClient.create_record ZohoClient.allExn 4 0 = ⟨some none, 4, 0, 3⟩ ∧
    (∀ fuel, ZohoClient.update_record ZohoClient.allExn (fuel + 1) 0 =
      ⟨some none, 1, 0, 0⟩) := by
  exact ⟨by decide, fun fuel => rfl⟩

/-- C5 (confirmed): `refresh_token` walks the fixed ordered domain list
and behaves exactly as the first-accepting-domain search: if some domain
yields a token, the loop stops there, stores that token and makes that
domain current; it raises exactly when every domain fails. -/
theorem C5_refresh_token_first_accepting
    (tokenOf : ZohoClient.ZohoDomain → Option String) (st : ZohoClient.ZohoState) :
    (ZohoClient.refresh_token tokenOf st =
      match ZohoClient.domains.find? (fun d => (tokenOf d).isSome) with
      | some d => .ok ⟨tokenOf d, some d⟩
      | none => .error ()) ∧
    (ZohoClient.refresh_token tokenOf st = .error () ↔
      ∀ d ∈ ZohoClient.domains, tokenOf d = none) := by
  have loop : ∀ (ds : List ZohoClient.ZohoDomain) (st' : ZohoClient.ZohoState),
      ZohoClient.refresh_token_loop tokenOf st' ds =
        match ds.find? (fun d => (tokenOf d).isSome) with
        | some d => .ok ⟨tokenOf d, some d⟩
        | none => .error () := by
    intro ds
    induction ds with
    | nil => intro st'; rfl
    | cons d rest ih =>
      intro st'
      rcases hd : tokenOf d with _ | tok
      · simp only [ZohoClient.refresh_token_loop, ZohoClient.try_refresh_token, hd,
          List.find?, Option.isSome_none, Bool.false_eq_true]
        exact ih st'
      · simp [ZohoClient.refresh_token_loop, ZohoClient.try_refresh_token, hd, List.find?]
  constructor
  · exact loop ZohoClient.domains st
  · rw [ZohoClient.refresh_token, loop ZohoClient.domains st]
    rcases hf : ZohoClient.domains.find? (fun d => (tokenOf d).isSome) with _ | d
    · simp only [List.find?_eq_none] at hf
      simp only [true_iff]
      intro d hd
      have := hf d hd
      rcases h : tokenOf d with _ | tok
      · rfl
      · rw [h] at this; simp at this
    · have := List.find?_some hf
      constructor
      · intro h; exact absurd h (by simp)
      · intro h
        have hmem := List.mem_of_find?_eq_some hf
        rw [h d hmem] at this
        simp at this

/-- C9, claim as stated, is false: the batch workers update the shared
counters with plain unsynchronised `+= 1` (no lock exists around them in
`process_lead_batch`/`process_unit_batch`), so an interleaving of two
parallel increments can lose one.  In the run where both workers read the
counter before either writes, both workers complete but the counter ends
at 1 instead of 2. -/
theorem C9_lost_increment_counterexample :
    (MigrationManager.runSchedule [true, false, true, false]).w1 =
      MigrationManager.WorkerPhase.finished ∧
    (MigrationManager.runSchedule [true, false, true, false]).w2 =
      MigrationManager.WorkerPhase.finished ∧
    (MigrationManager.runSchedule [true, false, true, false]).counter = 1 := by
  decide

/-- C9 (amended): the shared counter updates are unsynchronised two-step
read-modify-write sequences, so the final counter value depends on the
interleaving: a sequential schedule of the two increments yields 2, while
an overlapped schedule yields 1 with both workers completed — an
increment is lost. -/
theorem C9_unsynchronised_counters_amended :
    (MigrationManager.runSchedule [true, true, false, false] =
      ⟨2, .finished, .finished⟩) ∧
    (MigrationManager.runSchedule [true, false, false, true] =
      ⟨1, .finished, .finished⟩) := by
  decide

/-- Counter bookkeeping of one batch: with the stop event unset, the loop
folds the per-lead updates over the batch, so the final counters are the
initial ones plus the outcome counts. -/
lemma process_lead_batch_spec (c : MigrationManager.Counters)
    (batch : List MigrationManager.LeadOutcome) :
    MigrationManager.process_lead_batch false c batch =
      ⟨c.processed_count + (batch.count .writeSuccess + batch.count .writeFailure
          + batch.count .exn),
       c.success_count + batch.count .writeSuccess,
       c.error_count + (batch.count .writeFailure + batch.count .exn),
       c.skipped_count + batch.count .mapAbsent⟩ := by
  induction batch generalizing c with
  | nil =>
    cases c
    simp [MigrationManager.process_lead_batch]
  | cons l rest ih =>
    cases l <;>
      simp [MigrationManager.process_lead_batch, MigrationManager.processLead, ih,
        List.count_cons, MigrationManager.Counters.mk.injEq] <;>
      omega

/-- C10 (confirmed): in `process_lead_batch` a lead whose mapping returns
absent bumps only `skipped_count` and never `processed_count`; after a
batch completes with the stop event unset, the increase of
`processed_count` is exactly the increase of `success_count` plus the
increase of `error_count`, and the processed total shown by
`log_progress` therefore excludes the skipped leads. -/
theorem C10_skip_accounting (c : MigrationManager.Counters)
    (batch : List MigrationManager.LeadOutcome) :
    (MigrationManager.process_lead_batch false c batch).processed_count - c.processed_count =
      ((MigrationManager.process_lead_batch false c batch).success_count - c.success_count) +
      ((MigrationManager.process_lead_batch false c batch).error_count - c.error_count) ∧
    (MigrationManager.process_lead_batch false c batch).skipped_count =
      c.skipped_count + batch.count .mapAbsent ∧
    (MigrationManager.processLead c .mapAbsent).processed_count = c.processed_count ∧
    (MigrationManager.processLead c .mapAbsent).skipped_count = c.skipped_count + 1 ∧
    MigrationManager.log_progress_processed (MigrationManager.process_lead_batch false c batch) =
      c.processed_count + (batch.count .writeSuccess + batch.count .writeFailure
        + batch.count .exn) := by
  rw [process_lead_batch_spec c batch]
  refine ⟨by dsimp only; omega, rfl, rfl, rfl, rfl⟩

/-- The Jane Doe source record of the specification example. -/
def janeInput : PyRecord :=
  [("name", .vStr "Jane Doe"), ("email", .vStr "JANE@EX.COM"),
   ("mobile", .vStr "+1 (555) 010-2020")]

/-- The destination record the claim says the example yields. -/
def janeClaimed : PyRecord :=
  [("First_Name", .vStr "Jane"), ("Last_Name", .vStr "Doe"),
   ("Email", .vStr "jane@ex.com"), ("Mobile", .vStr "5550102020")]

/-- C3, claim as stated, is false: on the example input the mapper keeps
every digit of the mobile number — `re.sub(r'\D', '', ...)` does not drop
the country code — so `Mobile` is `"15550102020"`, not `"5550102020"`;
and the returned record additionally carries the constant `Lead_Source`
and `Contact_Type` fields, so it is not exactly the claimed four-field
record. -/
theorem C3_example_counterexample :
    (ContactMapper.map_contact janeInput).map (fun r => r.lookup "Mobile") =
      some (some (.vStr "15550102020")) ∧
    janeClaimed.lookup "Mobile" = some (.vStr "5550102020") ∧
    (ContactMapper.map_contact janeInput).map (fun r => r.lookup "Lead_Source") =
      some (some (.vStr "Odoo Migration")) ∧
    janeClaimed.lookup "Lead_Source" = none := by
  decide

/-- C3 (amended): the example input maps to the record with
`First_Name "Jane"`, `Last_Name "Doe"`, `Mobile "15550102020"` (digits
only, country code kept), the constant `Lead_Source`/`Contact_Type`
fields, and the lowercased `Email "jane@ex.com"`; a mobile number with
fewer than 8 digits is omitted from the result. -/
theorem C3_example_amended :
    ContactMapper.map_contact janeInput =
      some [("First_Name", .vStr "Jane"), ("Last_Name", .vStr "Doe"),
            ("Mobile", .vStr "15550102020"),
            ("Lead_Source", .vStr "Odoo Migration"),
            ("Contact_Type", .vStr "Imported Contact"),
            ("Email", .vStr "jane@ex.com")] ∧
    (ContactMapper.map_contact
        [("name", .vStr "Jane Doe"), ("email", .vStr "JANE@EX.COM"),
         ("mobile", .vStr "010-2020")]).map (fun r => r.lookup "Mobile") =
      some none := by
  decide

/-- Splitting a list into `take`/`drop` chunks of positive size `b` at
offsets `0, b, 2*b, ...` and flattening recovers the list. -/
lemma flatten_chunks {α : Type} (b : Nat) (hb : 0 < b) :
    ∀ (n : Nat) (L : List α), L.length = n →
      ((List.range ((n + b - 1) / b)).map (fun i => (L.drop (i * b)).take b)).flatten = L := by
  intro n
  induction n using Nat.strong_induction_on with
  | _ n ih =>
    intro L hL
    rcases Nat.eq_zero_or_pos n with h0 | hpos
    · subst h0
      rw [Nat.div_eq_of_lt (by omega)]
      simp [List.eq_nil_of_length_eq_zero hL]
    · have hk : (n + b - 1) / b = (n - 1) / b + 1 := by
        have h1 : n + b - 1 = (n - 1) + b := by omega
        rw [h1, Nat.add_div_right _ hb]
      have hlen' : (L.drop b).length = n - b := by
        rw [List.length_drop, hL]
      have hceil : (n - b + b - 1) / b = (n - 1) / b := by
        rcases le_or_lt b n with hbn | hnb
        · congr 1
          omega
        · have h1 : n - b = 0 := by omega
          rw [h1, Nat.div_eq_of_lt (by omega), Nat.div_eq_of_lt (by omega)]
      have hrec := ih (n - b) (by omega) (L.drop b) hlen'
      rw [hceil] at hrec
      rw [hk, List.range_succ_eq_map, List.map_cons, List.flatten_cons, List.map_map]
      have hmap : ((List.range ((n - 1) / b)).map
            ((fun i => (L.drop (i * b)).take b) ∘ Nat.succ))
          = (List.range ((n - 1) / b)).map (fun i => ((L.drop b).drop (i * b)).take b) := by
        apply List.map_congr_left
        intro i _
        show (L.drop ((i + 1) * b)).take b = ((L.drop b).drop (i * b)).take b
        rw [List.drop_drop]
        congr 2
        ring
      rw [hmap, hrec]
      simp

/-- C4, claim as stated (for every batch size), is false at batch size 0:
`range(0, total, 0)` raises `ValueError`, the call aborts before any page
job exists, and the matched id set (here of size 3) is never produced. -/
theorem C4_zero_batch_counterexample :
    OdooClient.fetch_records [1, 2, 3] (fun _ => true) 0 = none ∧
    OdooClient.search_count [1, 2, 3] (fun _ => true) = 3 := by
  decide

/-- C4 (amended): for every positive batch size, `fetch_records` splits
`[0, total)` into `(offset, batch_size)` jobs at offsets `0, b, 2b, ...`
and, when no page fetch fails, the pages concatenated in job order are
exactly the id-sorted matched set of the unpaged query — and whatever
order the jobs complete in (any permutation), sorting the concatenation
gives the same full id set, with nothing missing and nothing duplicated. -/
theorem C4_pagination_complete_amended (db : List Int) (p : Int → Bool) (b : Nat)
    (hb : 0 < b) (order : List Nat)
    (hperm : order.Perm
      ((List.range ((OdooClient.search_count db p + b - 1) / b)).map (· * b))) :
    OdooClient.fetch_records db p b = some (OdooClient.searchIds db p) ∧
    List.insertionSort (· ≤ ·)
        ((order.map (fun o => OdooClient.pageRecords db p o b)).flatten) =
      OdooClient.searchIds db p := by
  have hlen : (OdooClient.searchIds db p).length = OdooClient.search_count db p := by
    simp [OdooClient.searchIds, OdooClient.search_count]
  have hmain : (((List.range ((OdooClient.search_count db p + b - 1) / b)).map (· * b)).map
      (fun o => OdooClient.pageRecords db p o b)).flatten = OdooClient.searchIds db p := by
    rw [List.map_map]
    exact flatten_chunks b hb (OdooClient.search_count db p) (OdooClient.searchIds db p) hlen
  constructor
  · by_cases h0 : OdooClient.search_count db p = 0
    · have hnil : OdooClient.searchIds db p = [] := by
        apply List.eq_nil_of_length_eq_zero
        rw [hlen, h0]
      simp [OdooClient.fetch_records, h0, hnil]
    · have hb' : ¬ (b = 0) := by omega
      simp only [OdooClient.fetch_records, OdooClient.batchOffsets, h0, if_neg h0, if_neg hb',
        if_false, Option.map_some']
      rw [hmain]
  · have hflat : ((order.map (fun o => OdooClient.pageRecords db p o b)).flatten).Perm
        (OdooClient.searchIds db p) := by
      have := (hperm.map (fun o => OdooClient.pageRecords db p o b)).flatten
      rw [hmain] at this
      exact this
    exact List.eq_of_perm_of_sorted
      ((List.perm_insertionSort _ _).trans hflat)
      (List.sorted_insertionSort _ _) (List.sorted_insertionSort _ _)

/-- Witness for C4 (amended) at a concrete database, filter, batch size
and completion order. -/
theorem C4_pagination_complete_witness :
    OdooClient.fetch_records [3, 1, 2] (fun _ => true) 2 =
      some (OdooClient.searchIds [3, 1, 2] (fun _ => true)) ∧
    List.insertionSort (· ≤ ·)
        ((((List.range ((OdooClient.search_count [3, 1, 2] (fun _ => true) + 2 - 1) / 2)).map
            (· * 2)).map
          (fun o => OdooClient.pageRecords [3, 1, 2] (fun _ => true) o 2)).flatten) =
      OdooClient.searchIds [3, 1, 2] (fun _ => true) :=
  C4_pagination_complete_amended [3, 1, 2] (fun _ => true) 2 (by norm_num)
    ((List.range ((OdooClient.search_count [3, 1, 2] (fun _ => true) + 2 - 1) / 2)).map (· * 2))
    (List.Perm.refl _)

/-- C6 (confirmed): one page fetch pops exactly one connection (creating
a fresh one only if the pool is momentarily empty), passes the fetch
outcome through unchanged — success or raised exception alike — and the
`finally` block puts that same connection back, so the pool size is
preserved (or grows by the freshly created connection) and no failure
ever removes a connection permanently. -/
theorem C6_connection_returned (s : OdooClient.PoolState) (outcome : Exc (List Int))
    (hlen : s.pool.length ≤ s.maxlen) (hmax : 0 < s.maxlen) :
    (OdooClient.fetch_batch outcome s).1 = outcome ∧
    (OdooClient.get_connection s).1 ∈ (OdooClient.fetch_batch outcome s).2.pool ∧
    (OdooClient.fetch_batch outcome s).2.pool.length =
      (if s.pool.isEmpty then s.pool.length + 1 else s.pool.length) := by
  rcases s with ⟨pool, nextId, maxlen⟩
  dsimp only at hlen hmax
  cases pool with
  | nil =>
    have hne : ¬ (([] : List Nat).length = maxlen) := by
      simp only [List.length_nil]
      omega
    refine ⟨rfl, ?_, ?_⟩ <;>
      simp [OdooClient.fetch_batch, OdooClient.get_connection, OdooClient.create_connection,
        OdooClient.return_connection, OdooClient.pyTryFinally, hne]
  | cons c rest =>
    have hne : ¬ (rest.length = maxlen) := by
      simp only [List.length_cons] at hlen
      omega
    refine ⟨rfl, ?_, ?_⟩ <;>
      simp [OdooClient.fetch_batch, OdooClient.get_connection,
        OdooClient.return_connection, OdooClient.pyTryFinally, hne]

/-- Witness for C6 at a concrete pool and a failing fetch. -/
theorem C6_connection_returned_witness :
    (OdooClient.fetch_batch (.error ()) ⟨[5], 6, 2⟩).1 = .error () ∧
    (OdooClient.get_connection ⟨[5], 6, 2⟩).1 ∈
      (OdooClient.fetch_batch (.error ()) ⟨[5], 6, 2⟩).2.pool ∧
    (OdooClient.fetch_batch (.error ()) ⟨[5], 6, 2⟩).2.pool.length =
      (if ([5] : List Nat).isEmpty then ([5] : List Nat).length + 1
       else ([5] : List Nat).length) :=
  C6_connection_returned ⟨[5], 6, 2⟩ (.error ()) (by decide) (by decide)

/-- Values passing the truthiness filter are not blank. -/
lemma keep_not_blank {v : PyVal} (h : pyTruthy v = true) :
    v ≠ .vNone ∧ v ≠ .vStr "" ∧ v ≠ .vBool false := by
  refine ⟨fun hEq => ?_, fun hEq => ?_, fun hEq => ?_⟩ <;> rw [hEq] at h <;>
    exact absurd h (by decide)

/-- Values passing the unit cleanup filter are not blank. -/
lemma unitKeep_not_blank {v : PyVal} (h : UnitMapper.unitKeep v = true) :
    v ≠ .vNone ∧ v ≠ .vStr "" ∧ v ≠ .vBool false := by
  refine ⟨fun hEq => ?_, fun hEq => ?_, fun hEq => ?_⟩ <;> rw [hEq] at h <;>
    exact absurd h (by decide)

/-- C7 (confirmed): every record any of the three mappers returns has
passed its final cleanup filter, so no key is bound to `None`, the empty
string, or `False`. -/
theorem C7_no_blank_values :
    (∀ (r rec : PyRecord), ContactMapper.map_contact r = some rec →
      ∀ kv ∈ rec, kv.2 ≠ .vNone ∧ kv.2 ≠ .vStr "" ∧ kv.2 ≠ .vBool false) ∧
    (∀ (r rec : PyRecord), PropertyMapper.map_property r = some rec →
      ∀ kv ∈ rec, kv.2 ≠ .vNone ∧ kv.2 ≠ .vStr "" ∧ kv.2 ≠ .vBool false) ∧
    (∀ (r rec : PyRecord) (is_update : Bool), UnitMapper.map_unit r is_update = some rec →
      ∀ kv ∈ rec, kv.2 ≠ .vNone ∧ kv.2 ≠ .vStr "" ∧ kv.2 ≠ .vBool false) := by
  refine ⟨?_, ?_, ?_⟩
  · intro r rec h kv hmem
    unfold ContactMapper.map_contact at h
    rcases hc : ContactMapper.map_contact_core r with e | z <;> rw [hc] at h
    · simp at h
    · cases z with
      | none => simp at h
      | some z =>
        have h2 : some (z.filter (fun kv => pyTruthy kv.2)) = some rec := h
        injection h2 with h3
        subst h3
        exact keep_not_blank (List.mem_filter.mp hmem).2
  · intro r rec h kv hmem
    unfold PropertyMapper.map_property at h
    rcases hc : PropertyMapper.map_property_core r with e | z <;> rw [hc] at h
    · simp at h
    · cases z with
      | none => simp at h
      | some z =>
        have h2 : some (z.filter (fun kv => pyTruthy kv.2)) = some rec := h
        injection h2 with h3
        subst h3
        exact keep_not_blank (List.mem_filter.mp hmem).2
  · intro r rec is_update h kv hmem
    unfold UnitMapper.map_unit at h
    rcases hc : UnitMapper.map_unit_core r is_update with e | z <;> rw [hc] at h
    · simp at h
    · cases z with
      | none => simp at h
      | some z =>
        have h2 : some (z.filter (fun kv => UnitMapper.unitKeep kv.2)) = some rec := h
        injection h2 with h3
        subst h3
        exact unitKeep_not_blank (List.mem_filter.mp hmem).2

/-- Witness for C7 applying each conjunct at a concrete mapped record and
one of its fields. -/
theorem C7_no_blank_values_witness :
    ((.vStr "Jane" : PyVal) ≠ .vNone ∧ (.vStr "Jane" : PyVal) ≠ .vStr "" ∧
      (.vStr "Jane" : PyVal) ≠ .vBool false) ∧
    ((.vStr "false" : PyVal) ≠ .vNone ∧ (.vStr "false" : PyVal) ≠ .vStr "" ∧
      (.vStr "false" : PyVal) ≠ .vBool false) ∧
    ((.vStr "AED" : PyVal) ≠ .vNone ∧ (.vStr "AED" : PyVal) ≠ .vStr "" ∧
      (.vStr "AED" : PyVal) ≠ .vBool false) :=
  ⟨C7_no_blank_values.1 janeInput
      [("First_Name", .vStr "Jane"), ("Last_Name", .vStr "Doe"),
       ("Mobile", .vStr "15550102020"), ("Lead_Source", .vStr "Odoo Migration"),
       ("Contact_Type", .vStr "Imported Contact"), ("Email", .vStr "jane@ex.com")]
      (by decide) ("First_Name", .vStr "Jane") (by decide),
   C7_no_blank_values.2.1 [("ownership_type", .vStr "freehold")]
      [("Properties / Units Id", .vStr "odoo_"), ("Status", .vStr "false"),
       ("Tag", .vStr "Freehold"), ("Property Details", .vStr "For Lease"),
       ("Possession Status", .vStr "Ready")]
      (by decide) ("Status", .vStr "false") (by decide),
   C7_no_blank_values.2.2
      [("name", .vStr "Unit A"), ("ownership_type", .vStr "freehold"),
       ("city_id", .vPair 7 "Dubai")]
      [("Property_Title", .vStr "Unit A"), ("City", .vStr "Dubai"),
       ("Possession_Status", .vStr "Ready"),
       ("Properties_Units_Id", .vStr "odoo_None"), ("Currency", .vStr "AED")]
      false (by decide) ("Currency", .vStr "AED") (by decide)⟩

/-- A minimal valid unit record (truthy name, freehold ownership) whose
`city_id` relation is the parameter, used to settle C8. -/
def unitRelTemplate (city : PyVal) : PyRecord :=
  [("name", .vStr "Unit A"), ("ownership_type", .vStr "freehold"),
   ("city_id", city)]

/-- A minimal valid unit record with no `city_id` key at all. -/
def unitRelTemplateNoCity : PyRecord :=
  [("name", .vStr "Unit A"), ("ownership_type", .vStr "freehold")]

/-- The dict `map_unit_core` builds on `unitRelTemplate (.vPair i l)`
before the cleanup filter (the relation id `i` is dropped by
`get_relation_name`, so only the label `l` remains). -/
def c8Core (l : String) : PyRecord :=
  [("Unit_Code", .vNone),
   ("Property_Title", .vStr "Unit A"),
   ("Unit_No", .vNone),
   ("Ref_No", .vNone),
   ("Locality", .vStr ""),
   ("Sub_Locality", .vStr ""),
   ("City", .vStr l),
   ("State", .vStr ""),
   ("Country", .vStr ""),
   ("Unit_Types", .vStr ""),
   ("Status", .vNone),
   ("Possession_Status", .vStr "Ready"),
   ("Bedrooms", .vStr ""),
   ("Bathrooms", .vStr ""),
   ("Floor_No", .vNone),
   ("Total_Area", .vNone),
   ("Internal_Area_UOM", .vNone),
   ("External_Area_UOM", .vNone),
   ("Unit_Sale_Price", .vNone),
   ("Rent_Amount", .vNone),
   ("Price_Per_UOM", .vNone),
   ("Maintenance_fee", .vNone),
   ("No_of_Cheques", .vNone),
   ("Payment_Allocated", .vNone),
   ("Total_Value", .vNone),
   ("Discount_Amount", .vNone),
   ("Created_On", .vNone),
   ("Listing_Date", .vNone),
   ("Property_Description", .vNone),
   ("Property_Description_AR", .vNone),
   ("Property_Title_AR", .vNone),
   ("Permit_Number", .vNone),
   ("Geopoints", .vStr ""),
   ("Agent_Name", .vNone),
   ("Agent_Email", .vNone),
   ("Agent_Phone", .vNone),
   ("Agent_ID", .vNone),
   ("Properties_Units_Id", .vStr "odoo_None"),
   ("Exchange_Rate", .vNone),
   ("Currency", .vStr "AED")]

lemma c8_core_eval (i : Int) (l : String) :
    UnitMapper.map_unit_core (unitRelTemplate (.vPair i l)) false =
      .ok (some (c8Core l)) := rfl

lemma c8_filter (l : String) (hl : l ≠ "") :
    (c8Core l).filter (fun kv => UnitMapper.unitKeep kv.2) =
      [("Property_Title", .vStr "Unit A"), ("City", .vStr l),
       ("Possession_Status", .vStr "Ready"),
       ("Properties_Units_Id", .vStr "odoo_None"), ("Currency", .vStr "AED")] := by
  have hkeep : UnitMapper.unitKeep (.vStr l) = true := by
    simp [UnitMapper.unitKeep, pyEq, pyNorm, normAtom, hl]
  simp [c8Core, List.filter_cons, hkeep,
    show UnitMapper.unitKeep PyVal.vNone = false from rfl,
    show UnitMapper.unitKeep (PyVal.vStr "") = false from rfl,
    show UnitMapper.unitKeep (PyVal.vStr "Unit A") = true from rfl,
    show UnitMapper.unitKeep (PyVal.vStr "Ready") = true from rfl,
    show UnitMapper.unitKeep (PyVal.vStr "odoo_None") = true from rfl,
    show UnitMapper.unitKeep (PyVal.vStr "AED") = true from rfl]

lemma c8_city (i : Int) (l : String) (hl : l ≠ "") :
    UnitMapper.map_unit (unitRelTemplate (.vPair i l)) false =
      some [("Property_Title", .vStr "Unit A"), ("City", .vStr l),
            ("Possession_Status", .vStr "Ready"),
            ("Properties_Units_Id", .vStr "odoo_None"), ("Currency", .vStr "AED")] := by
  unfold UnitMapper.map_unit
  rw [c8_core_eval i l]
  dsimp only
  rw [c8_filter l hl]

/-- C8, claim as stated, is false: `[7, ""]` is a relation-shaped input,
yet the mapper does not emit its label as the field value — the empty
label is swept away by the cleanup filter and the `City` field is omitted
from the returned record. -/
theorem C8_empty_label_counterexample :
    (UnitMapper.map_unit (unitRelTemplate (.vPair 7 "")) false).map
        (fun r => r.lookup "City") = some none ∧
    UnitMapper.get_relation_name (.vPair 7 "") = .vStr "" := by
  decide

/-- C8 (amended): `get_relation_name` unwraps a relation-shaped input
`[id, label]` to its label and maps a false or absent relation to the
empty string; in the returned record the mapped field carries the label
exactly when the label is nonempty, while false/absent relations (and
empty labels) leave the field omitted entirely. -/
theorem C8_relation_unwrap_amended :
    (∀ (i : Int) (l : String), UnitMapper.get_relation_name (.vPair i l) = .vStr l) ∧
    UnitMapper.get_relation_name (.vBool false) = .vStr "" ∧
    UnitMapper.get_relation_name .vNone = .vStr "" ∧
    (∀ (i : Int) (l : String), l ≠ "" →
      (UnitMapper.map_unit (unitRelTemplate (.vPair i l)) false).map
          (fun r => r.lookup "City") = some (some (.vStr l))) ∧
    (UnitMapper.map_unit (unitRelTemplate (.vBool false)) false).map
        (fun r => r.lookup "City") = some none ∧
    (UnitMapper.map_unit unitRelTemplateNoCity false).map
        (fun r => r.lookup "City") = some none := by
  refine ⟨fun i l => rfl, rfl, rfl, ?_, by decide, by decide⟩
  intro i l hl
  rw [c8_city i l hl]
  rfl

/-- Witness for C8 (amended) at a concrete relation input. -/
theorem C8_relation_unwrap_witness :
    (UnitMapper.map_unit (unitRelTemplate (.vPair 7 "Dubai")) false).map
        (fun r => r.lookup "City") = some (some (.vStr "Dubai")) :=
  C8_relation_unwrap_amended.2.2.2.1 7 "Dubai" (by decide)
